import Mathlib

/-!
The per-handle worker dispatcher of flutter-pi, `src/plugins/spidev.c`.

A shallow embedding of the SPI plugin: the handle registry (`spi_plugin`), the
hand-off `spidevp_assign_task`, the request decoder `spidevp_onReceive` and the
body of the worker loop `spidevp_run_spi_thread`.

Conventions of the embedding.
* A pointer into `spi_plugin.threads` is the index of the element.
* A mutex is a `Bool`: `true` while it is locked.
* A C object that was declared but never assigned is `none`
  (its value is indeterminate); an assigned one is `some v`.
* A function that ends without a return statement hands its caller the content
  of the return register, which is the result of the last call it made.
* Calls into the reply transport, the allocator and the hand-off are recorded,
  in program order, as a list of `event`s.
* Results of system and library calls (`open`, `close`, `ioctl`, `pthread_create`,
  `malloc`) are supplied by an environment value.
-/

namespace Spidev

/-! ## Constants of `<errno.h>` -/

/-- Bad file descriptor. -/
def EBADF : Int := 9

/-- Device or resource busy. -/
def EBUSY : Int := 16

/-- The enum of lines 17-26. -/
inductive spidevp_task_type where
  | kSpiTaskClose
  | kSpiTaskRdMode
  | kSpiTaskWrMode
  | kSpiTaskWrBitsPerWord
  | kSpiTaskRdBitsPerWord
  | kSpiTaskWrMaxSpeedHz
  | kSpiTaskRdMaxSpeedHz
  | kSpiTaskTransmit
  deriving DecidableEq, Repr

/-- The fields of `struct spi_ioc_transfer` (linux/spi/spidev.h) that the plugin
assigns; buffers are addresses. -/
structure spi_ioc_transfer where
  tx_buf : Nat
  rx_buf : Nat
  len : Nat
  speed_hz : Nat
  delay_usecs : Nat
  bits_per_word : Nat
  cs_change : Nat
  deriving DecidableEq, Repr

/-- The anonymous union of `struct spidevp_task` (lines 30-35): the member that
was written last, `zeroed` for storage that was zero-initialised and
`indeterminate` for storage that was never written. -/
inductive task_operand where
  | indeterminate
  | zeroed
  | mode (v : Nat)
  | bits (v : Nat)
  | speed (v : Nat)
  | transfer (t : spi_ioc_transfer)
  deriving DecidableEq, Repr

/-- The struct of lines 28-37. `responsehandle` is an address (`0` is `NULL`),
`none` while the field has never been assigned. -/
structure spidevp_task where
  type : spidevp_task_type
  operand : task_operand
  responsehandle : Option Nat
  deriving DecidableEq, Repr

/-- The struct of lines 39-45. The condition variable carries no state of its
own in this embedding. -/
structure spidevp_thread where
  fd : Int
  has_task : Bool
  task : spidevp_task
  mutex : Bool
  deriving DecidableEq, Repr

/-- The compound literal of lines 47-51: members that are not named are
zero-initialised, so the task has type `0` (`kSpiTaskClose`), a zeroed union and
a `NULL` response handle. -/
def SPI_THREAD_INITIALIZER : spidevp_thread :=
  { fd := -1
    has_task := false
    task :=
      { type := spidevp_task_type.kSpiTaskClose
        operand := task_operand.zeroed
        responsehandle := some 0 }
    mutex := false }

/-- The global of lines 53-63. `threads` is the allocated storage: an access at
an index that is not below its length is outside the allocation. -/
structure spi_plugin_t where
  threads : List spidevp_thread
  threadlist_mutex : Bool
  size_threads : Nat
  num_threads : Nat
  deriving DecidableEq, Repr

/-- The static initialiser of lines 58-63. -/
def spi_plugin : spi_plugin_t :=
  { threads := []
    threadlist_mutex := false
    size_threads := 0
    num_threads := 0 }

/-- How a call of one of the plugin's functions ends. -/
inductive outcome (α : Type) where
  /-- The call returned `value`, leaving the registry in `plugin`. -/
  | returned (value : α) (plugin : spi_plugin_t)
  /-- The call waits in `pthread_mutex_lock` for a mutex that is locked. -/
  | blocked
  /-- The call did something the C language leaves undefined: an access outside
  the allocated storage, or the use of an object that was never assigned. -/
  | undefined
  /-- Control reached the closing brace of a function that returns `int` without
  passing a return statement, leaving the registry in `plugin`. The caller that
  reads the result reads the return register, and `register` is what that
  register holds: the result of the last call the function made. -/
  | fell_off (register : Int) (plugin : spi_plugin_t)
  deriving DecidableEq, Repr

/-- Results of the library and system calls made on the dispatching side. -/
structure environment where
  /-- The value of `errno` after a call that failed. -/
  errno : Int
  /-- The result of `open(path, O_RDWR)`. -/
  open_ret : Int
  /-- The result of `pthread_create`. -/
  pthread_create_ret : Int
  /-- An error number other than `EBUSY` that `pthread_mutex_trylock` reports,
  when it fails for a reason other than contention. -/
  trylock_fault : Option Int
  /-- The address returned by `malloc`. -/
  malloc_ret : Nat
  deriving DecidableEq, Repr

/-- POSIX `pthread_mutex_trylock`: returns zero and takes the mutex when it is
free; otherwise returns an error number, `EBUSY` when the mutex is locked.
The result is the pair of the return value and the mutex afterwards. -/
def pthread_mutex_trylock (fault : Option Int) (mutex : Bool) : Int × Bool :=
  match fault with
  | some e => (e, mutex)
  | none => if mutex then (EBUSY, mutex) else (0, true)

/-! ## Handle registry (lines 203-232, 465-478) -/

/-- How the `for` loop of lines 206-209 ends. -/
inductive scan_result where
  | found (i : Nat)
  | not_found
  | out_of_bounds
  deriving DecidableEq, Repr

/-- The `for` loop of lines 206-209, entered at index `i` with `n` iterations
left before `i` reaches `num_threads`. -/
def spidevp_get_thread_scan (threads : List spidevp_thread) (fd : Int) :
    Nat → Nat → scan_result
  | _, 0 => scan_result.not_found
  | i, n + 1 =>
    match threads[i]? with
    | none => scan_result.out_of_bounds
    | some t =>
      if t.fd = fd then scan_result.found i
      else spidevp_get_thread_scan threads fd (i + 1) n

/-- Lines 203-213. The lock is taken at line 204; line 208 returns the match
without unlocking, line 211 unlocks before `NULL` is returned. -/
def spidevp_get_thread (P : spi_plugin_t) (fd : Int) : outcome (Option Nat) :=
  if P.threadlist_mutex then outcome.blocked
  else
    let P1 := { P with threadlist_mutex := true }
    match spidevp_get_thread_scan P1.threads fd 0 P1.num_threads with
    | scan_result.out_of_bounds => outcome.undefined
    | scan_result.found i => outcome.returned (some i) P1
    | scan_result.not_found => outcome.returned none { P1 with threadlist_mutex := false }

/-- Lines 215-232. The value is the return code and `*thread_out`, which stays
unassigned when `pthread_create` is seen to fail. -/
def spidevp_new_thread (E : environment) (P : spi_plugin_t) (fd : Int) :
    outcome (Int × Option Nat) :=
  if P.threadlist_mutex then outcome.blocked
  else
    let P1 := { P with threadlist_mutex := true }
    let i := P1.num_threads
    let P2 := { P1 with num_threads := P1.num_threads + 1 }
    match P2.threads[i]? with
    | none => outcome.undefined
    | some t =>
      let P3 := { P2 with threads := P2.threads.set i { t with fd := fd } }
      let P4 := { P3 with threadlist_mutex := false }
      if E.pthread_create_ret = -1 then outcome.returned (E.errno, none) P4
      else outcome.returned (0, some i) P4

/-- Lines 465-478, on the registry: one element is allocated and initialised.
Registering the receiver with the plugin host has no effect on the registry. -/
def spidevp_init (P : spi_plugin_t) : spi_plugin_t :=
  { P with
    size_threads := 1
    threads := List.replicate 1 SPI_THREAD_INITIALIZER }

/-! ## Task submission (lines 234-253) -/

/-- Lines 234-253. The outcome is `returned (some r)` when a `return r`
statement is reached. Line 244 tests `ok == -1`, line 246 tests `ok == 0`, and
there is no further branch: for any other result of the probe control reaches
the closing brace of the function without a return statement, with the result
`ok` of `pthread_mutex_trylock`, the last call made, still in the return
register. -/
def spidevp_assign_task (E : environment) (P : spi_plugin_t) (fd : Int)
    (task : spidevp_task) : outcome (Option Int) :=
  match spidevp_get_thread P fd with
  | outcome.blocked => outcome.blocked
  | outcome.undefined => outcome.undefined
  | outcome.fell_off _ _ => outcome.undefined
  | outcome.returned none P1 => outcome.returned (some EBADF) P1
  | outcome.returned (some i) P1 =>
    match P1.threads[i]? with
    | none => outcome.undefined
    | some t =>
      let r := pthread_mutex_trylock E.trylock_fault t.mutex
      let ok := r.1
      let t1 := { t with mutex := r.2 }
      if ok = -1 then
        outcome.returned (some E.errno) { P1 with threads := P1.threads.set i t1 }
      else if ok = 0 then
        let t2 := { t1 with task := task }
        let t3 := { t2 with has_task := true }
        let t4 := { t3 with mutex := false }
        outcome.returned (some 0) { P1 with threads := P1.threads.set i t4 }
      else
        outcome.fell_off ok { P1 with threads := P1.threads.set i t1 }

/-! ## Platform-channel values and the calls recorded as events -/

/-- Modelled from the spec: `struct std_value` of `platformchannel.h`, which is
not among the sources. The spec (section 6) names the argument shapes string,
int, list, map, bool and byte array; `kStdNull` is the absent value. Map keys
are values themselves. -/
inductive std_value where
  | kStdNull
  | kStdBool (b : Bool)
  | kStdInt (n : Int)
  | kStdString (s : String)
  | kStdUInt8Array (uint8array : List Nat)
  | kStdList (list : List std_value)
  | kStdMap (entries : List (std_value × std_value))

/-- Modelled from the spec: the macro `STDVALUE_IS_INT` of `platformchannel.h`. -/
def STDVALUE_IS_INT : std_value → Bool
  | std_value.kStdInt _ => true
  | _ => false

/-- Modelled from the spec: the macro `STDVALUE_AS_INT` of `platformchannel.h`,
applied to a value for which `STDVALUE_IS_INT` holds. -/
def STDVALUE_AS_INT : std_value → Int
  | std_value.kStdInt n => n
  | _ => 0

/-- Modelled from the spec: the macro `STDVALUE_IS_BOOL` of `platformchannel.h`. -/
def STDVALUE_IS_BOOL : std_value → Bool
  | std_value.kStdBool _ => true
  | _ => false

/-- Modelled from the spec: the macro `STDVALUE_AS_BOOL` of `platformchannel.h`. -/
def STDVALUE_AS_BOOL : std_value → Bool
  | std_value.kStdBool b => b
  | _ => false

/-- Modelled from the spec: the macro `STDVALUE_IS_SIZED_LIST` of
`platformchannel.h`: a list with exactly `size` elements. -/
def STDVALUE_IS_SIZED_LIST (v : std_value) (size : Nat) : Bool :=
  match v with
  | std_value.kStdList l => l.length == size
  | _ => false

/-- The element `list[i]` of a list value. -/
def std_value.item (v : std_value) (i : Nat) : std_value :=
  match v with
  | std_value.kStdList l => l.getD i std_value.kStdNull
  | _ => std_value.kStdNull

/-- The scan behind `stdmap_get_str`: the value of the first entry whose key is
the string `key`. -/
def stdmap_get_str_entries (key : String) :
    List (std_value × std_value) → Option std_value
  | [] => none
  | (std_value.kStdString s, v) :: rest =>
    if s = key then some v else stdmap_get_str_entries key rest
  | _ :: rest => stdmap_get_str_entries key rest

/-- Modelled from the spec: `stdmap_get_str` of `platformchannel.h`: the value
stored under the string key, `none` (a `NULL` pointer) when the key is missing. -/
def stdmap_get_str (v : std_value) (key : String) : Option std_value :=
  match v with
  | std_value.kStdMap entries => stdmap_get_str_entries key entries
  | _ => none

/-- Conversion of a 64-bit integer to an unsigned integer of `w` bits. -/
def to_unsigned (w : Nat) (v : Int) : Nat := (v % (2 : Int) ^ w).toNat

/-- Conversion of a 64-bit integer to `int` (32 bits, two's complement). -/
def to_int (v : Int) : Int := (v + 2147483648) % 4294967296 - 2147483648

/-- A call that leaves the plugin, in the order the program makes it. The
response handle of a reply is `none` when the pointer passed was never
assigned. -/
inductive event where
  | platch_respond_success_std (responsehandle : Option Nat)
      (return_value : Option std_value)
  | platch_respond_native_error_std (responsehandle : Option Nat) (err : Int)
  | platch_respond_illegal_arg_std (responsehandle : Option Nat) (msg : String)
  | platch_respond_error_std (responsehandle : Option Nat) (code : String)
      (msg : String) (details : Option std_value)
  | platch_respond_not_implemented (responsehandle : Option Nat)
  | malloc (size : Nat) (addr : Nat)
  | memcpy (dst : Nat) (bytes : List Nat)
  | free (addr : Option Nat)
  | spidevp_assign_task (fd : Option Int) (task : spidevp_task)

/-- Whether an event is a terminal reply on the reply channel. -/
def event.is_reply : event → Bool
  | event.platch_respond_success_std _ _ => true
  | event.platch_respond_native_error_std _ _ => true
  | event.platch_respond_illegal_arg_std _ _ => true
  | event.platch_respond_error_std _ _ _ _ => true
  | event.platch_respond_not_implemented _ => true
  | _ => false

/-- The terminal replies among a list of events. -/
def replies (evs : List event) : List event := evs.filter event.is_reply

/-! ## Worker thread (lines 65-201) -/

/-- The answer of the operating system to the one `close` or `ioctl` call of a
loop iteration: the return value, `errno` when it is `-1`, and the value a
successful read request stores through its argument pointer. -/
structure syscall_result where
  ret : Int
  errno : Int
  out : Nat
  deriving DecidableEq, Repr

/-- The automatic variables of `spidevp_run_spi_thread` (lines 67-71);
`result` and `ok` have no initialiser. -/
structure spi_thread_locals where
  result : Option Int
  running : Bool
  fd : Int
  err : Int
  ok : Option Int
  deriving DecidableEq, Repr

/-- The state of the locals when the loop is first reached (lines 66-71). -/
def spi_thread_entry (thread : spidevp_thread) : spi_thread_locals :=
  { result := none
    running := true
    fd := thread.fd
    err := 0
    ok := none }

/-- The failure branch shared by the cases of the switch, for instance lines
81-85: `err = errno; pthread_mutex_unlock(&thread->mutex); break;`. -/
def spi_thread_fail (S : syscall_result) (L : spi_thread_locals)
    (t : spidevp_thread) : spi_thread_locals × spidevp_thread :=
  ({ L with err := S.errno }, { t with mutex := false })

/-- The `rx_buf` address of the transfer in the task slot (line 174); `none`
when the union does not hold a transfer. -/
def transfer_rx_buf (t : spidevp_thread) : Option Nat :=
  match t.task.operand with
  | task_operand.transfer x => some x.rx_buf
  | _ => none

/-- The switch of lines 78-193, run with the mutex held, given the answer `S`
of the system call the selected case makes. A successful read request stores
its value through the pointer it was given: 8 bits for the mode and the word
size, 32 bits for the speed. -/
def spi_thread_switch (S : syscall_result) (L0 : spi_thread_locals)
    (t : spidevp_thread) : spi_thread_locals × spidevp_thread × List event :=
  let L := { L0 with ok := some S.ret }
  match t.task.type with
  | spidevp_task_type.kSpiTaskClose =>
    if S.ret = -1 then
      let r := spi_thread_fail S L t
      (r.1, r.2, [])
    else
      let L1 := { L with running := false }
      let t1 := { t with fd := -1 }
      let t2 := { t1 with mutex := false }
      (L1, t2, [event.platch_respond_success_std t2.task.responsehandle none])
  | spidevp_task_type.kSpiTaskRdMode =>
    if S.ret = -1 then
      let r := spi_thread_fail S L t
      (r.1, r.2, [])
    else
      let v := S.out % 256
      let t1 := { t with task := { t.task with operand := task_operand.mode v } }
      let L1 := { L with result := some (v : Int) }
      let t2 := { t1 with mutex := false }
      (L1, t2, [event.platch_respond_success_std t2.task.responsehandle none])
  | spidevp_task_type.kSpiTaskWrMode =>
    if S.ret = -1 then
      let r := spi_thread_fail S L t
      (r.1, r.2, [])
    else
      let t2 := { t with mutex := false }
      (L, t2, [event.platch_respond_success_std t2.task.responsehandle none])
  | spidevp_task_type.kSpiTaskWrBitsPerWord =>
    if S.ret = -1 then
      let r := spi_thread_fail S L t
      (r.1, r.2, [])
    else
      let t2 := { t with mutex := false }
      (L, t2, [event.platch_respond_success_std t2.task.responsehandle none])
  | spidevp_task_type.kSpiTaskRdBitsPerWord =>
    if S.ret = -1 then
      let r := spi_thread_fail S L t
      (r.1, r.2, [])
    else
      let v := S.out % 256
      let t1 := { t with task := { t.task with operand := task_operand.bits v } }
      let L1 := { L with result := some (v : Int) }
      let t2 := { t1 with mutex := false }
      (L1, t2, [event.platch_respond_success_std t2.task.responsehandle none])
  | spidevp_task_type.kSpiTaskWrMaxSpeedHz =>
    if S.ret = -1 then
      let r := spi_thread_fail S L t
      (r.1, r.2, [])
    else
      let t2 := { t with mutex := false }
      (L, t2, [event.platch_respond_success_std t2.task.responsehandle none])
  | spidevp_task_type.kSpiTaskRdMaxSpeedHz =>
    if S.ret = -1 then
      let r := spi_thread_fail S L t
      (r.1, r.2, [])
    else
      let v := S.out % 4294967296
      let t1 := { t with task := { t.task with operand := task_operand.speed v } }
      let L1 := { L with result := some (to_int (v : Int)) }
      let t2 := { t1 with mutex := false }
      (L1, t2, [event.platch_respond_success_std t2.task.responsehandle none])
  | spidevp_task_type.kSpiTaskTransmit =>
    let buf := transfer_rx_buf t
    if S.ret = -1 then
      let r := spi_thread_fail S L t
      (r.1, r.2, [event.free buf])
    else
      let t2 := { t with mutex := false }
      (L, t2, [event.platch_respond_success_std t2.task.responsehandle none,
               event.free buf])

/-- The tail of the loop body, lines 195-199. -/
def spi_thread_tail (L : spi_thread_locals) (t : spidevp_thread) :
    spi_thread_locals × spidevp_thread × List event :=
  let t1 := { t with has_task := false }
  if L.err ≠ 0 then
    ({ L with err := 0 }, t1,
      [event.platch_respond_native_error_std t1.task.responsehandle L.err])
  else (L, t1, [])

/-- How one pass through the `while (running)` loop of lines 73-200 ends. -/
inductive iteration where
  /-- The loop condition is false: the thread function is over. -/
  | exited
  /-- The thread waits at line 74 for the mutex or at line 76 for a task. -/
  | waits
  /-- The body ran to line 199. -/
  | completed (L : spi_thread_locals) (thread : spidevp_thread) (events : List event)

/-- One pass through the loop of lines 73-200 for the context `t`, where `S`
answers the system call of the pass. -/
def spidevp_run_spi_thread (S : syscall_result) (L : spi_thread_locals)
    (t : spidevp_thread) : iteration :=
  if L.running = false then iteration.exited
  else if t.mutex then iteration.waits
  else if t.has_task = false then iteration.waits
  else
    let a := spi_thread_switch S L { t with mutex := true }
    let b := spi_thread_tail a.1 a.2.1
    iteration.completed b.1 b.2.1 (a.2.2 ++ b.2.2)

/-! ## Dispatcher (lines 255-463) -/

/-- The decoded method call handed to the receiver (`struct platch_obj`). -/
structure platch_obj where
  method : String
  std_arg : std_value

/-- How a call of a receiver ends: the calls it made, and its outcome. The
`platch_respond_*` functions are taken to return `0`. -/
structure receive_result where
  events : List event
  out : outcome Int

/-- Lines 255-280. -/
def spidevp_open (E : environment) (P : spi_plugin_t) (object : platch_obj)
    (responsehandle : Nat) : receive_result :=
  match object.std_arg with
  | std_value.kStdString _ =>
    let fd := E.open_ret
    if fd = -1 then
      { events := [event.platch_respond_native_error_std (some responsehandle) E.errno]
        out := outcome.returned 0 P }
    else
      match spidevp_new_thread E P fd with
      | outcome.blocked => { events := [], out := outcome.blocked }
      | outcome.undefined => { events := [], out := outcome.undefined }
      | outcome.fell_off _ _ => { events := [], out := outcome.undefined }
      | outcome.returned r P1 =>
        if r.1 ≠ 0 then
          { events := [event.platch_respond_native_error_std (some responsehandle) r.1]
            out := outcome.returned 0 P1 }
        else
          { events := [event.platch_respond_success_std (some responsehandle) none]
            out := outcome.returned 0 P1 }
  | _ =>
    { events := [event.platch_respond_illegal_arg_std (some responsehandle)
        "Expected `arg` to be a string."]
      out := outcome.returned 0 P }

/-- Where control stands when the if-chain of lines 289-444 is left, for a
method other than `open`. -/
inductive decoded where
  /-- A `return platch_respond_illegal_arg_std(...)` inside the chain. -/
  | responded (events : List event)
  /-- Line 446 is reached with `has_task == true`: the locals `fd` and `task`
  as they are then, and the calls made while decoding. -/
  | submit (fd : Option Int) (task : spidevp_task) (events : List event)
  /-- Line 446 is reached with `has_task == false`. -/
  | unhandled

/-- The local `task` of line 285 before anything is assigned to it, with the
type a branch assigns at its end. -/
def task_local (type : spidevp_task_type) (operand : task_operand) : spidevp_task :=
  { type := type, operand := operand, responsehandle := none }

/-- The argument check shared by `setMode`, `setMaxSpeed` and `setWordSize`
(lines 292-293, 318-319, 344-345). -/
def is_int_pair (arg : std_value) : Bool :=
  STDVALUE_IS_SIZED_LIST arg 2 && STDVALUE_IS_INT (arg.item 0)
    && STDVALUE_IS_INT (arg.item 1)

/-- The reply of lines 297-300, 323-326 and 349-352. -/
def illegal_int_pair (responsehandle : Nat) : decoded :=
  decoded.responded [event.platch_respond_illegal_arg_std (some responsehandle)
    "Expected `arg` to be a List<int> with size 2."]

/-- The reply of lines 309-312, 335-338 and 361-364. -/
def illegal_int (responsehandle : Nat) : decoded :=
  decoded.responded [event.platch_respond_illegal_arg_std (some responsehandle)
    "Expected `arg` to be an integer."]

/-- An integer entry of the argument map, as read at lines 371-372, 381-382,
391-392 and 401-402: `none` when the key is missing or its value is not an
integer. -/
def map_int (arg : std_value) (key : String) : Option Int :=
  match stdmap_get_str arg key with
  | some v => if STDVALUE_IS_INT v then some (STDVALUE_AS_INT v) else none
  | none => none

/-- The boolean entry read at lines 411-412. -/
def map_bool (arg : std_value) (key : String) : Option Bool :=
  match stdmap_get_str arg key with
  | some v => if STDVALUE_IS_BOOL v then some (STDVALUE_AS_BOOL v) else none
  | none => none

/-- The byte-array entry read at lines 421-422. -/
def map_uint8array (arg : std_value) (key : String) : Option (List Nat) :=
  match stdmap_get_str arg key with
  | some (std_value.kStdUInt8Array bytes) => some bytes
  | _ => none

/-- The body of `if (object->std_arg.type == kStdMap)`, lines 371-436. -/
def decode_transmit_map (E : environment) (arg : std_value) (responsehandle : Nat) :
    decoded :=
  match map_int arg "fd" with
  | none => decoded.responded [event.platch_respond_illegal_arg_std
      (some responsehandle) "Expected `arg['fd']` to be an integer."]
  | some fd =>
  match map_int arg "speed" with
  | none => decoded.responded [event.platch_respond_illegal_arg_std
      (some responsehandle) "Expected `arg['speed']` to be an integer."]
  | some speed =>
  match map_int arg "delay" with
  | none => decoded.responded [event.platch_respond_illegal_arg_std
      (some responsehandle) "Expected `arg['delay']` to be an integer."]
  | some delay =>
  match map_int arg "wordSize" with
  | none => decoded.responded [event.platch_respond_illegal_arg_std
      (some responsehandle) "Expected `arg['wordSize']` to be an integer."]
  | some wordSize =>
  match map_bool arg "csChange" with
  | none => decoded.responded [event.platch_respond_illegal_arg_std
      (some responsehandle) "Expected `arg['csChange']` to be an integer."]
  | some csChange =>
  match map_uint8array arg "buffer" with
  | none => decoded.responded [event.platch_respond_illegal_arg_std
      (some responsehandle) "Expected `arg['buffer']` to be a uint8 array."]
  | some bytes =>
    let buf := E.malloc_ret
    let transfer : spi_ioc_transfer :=
      { tx_buf := buf
        rx_buf := buf
        len := bytes.length % 4294967296
        speed_hz := to_unsigned 32 speed
        delay_usecs := to_unsigned 16 delay
        bits_per_word := to_unsigned 8 wordSize
        cs_change := if csChange then 1 else 0 }
    decoded.submit (some (to_int fd))
      (task_local spidevp_task_type.kSpiTaskTransmit (task_operand.transfer transfer))
      [event.malloc bytes.length buf, event.memcpy buf bytes]

/-- The if-chain of lines 291-444: every branch but `open`. -/
def spidevp_onReceive_decode (E : environment) (object : platch_obj)
    (responsehandle : Nat) : decoded :=
  let arg := object.std_arg
  if object.method = "setMode" then
    if is_int_pair arg then
      decoded.submit (some (to_int (STDVALUE_AS_INT (arg.item 0))))
        (task_local spidevp_task_type.kSpiTaskWrMode
          (task_operand.mode (to_unsigned 8 (STDVALUE_AS_INT (arg.item 1))))) []
    else illegal_int_pair responsehandle
  else if object.method = "getMode" then
    if STDVALUE_IS_INT arg then
      decoded.submit (some (to_int (STDVALUE_AS_INT arg)))
        (task_local spidevp_task_type.kSpiTaskRdMode task_operand.indeterminate) []
    else illegal_int responsehandle
  else if object.method = "setMaxSpeed" then
    if is_int_pair arg then
      decoded.submit (some (to_int (STDVALUE_AS_INT (arg.item 0))))
        (task_local spidevp_task_type.kSpiTaskWrMaxSpeedHz
          (task_operand.speed (to_unsigned 64 (STDVALUE_AS_INT (arg.item 1))))) []
    else illegal_int_pair responsehandle
  else if object.method = "getMaxSpeed" then
    if STDVALUE_IS_INT arg then
      decoded.submit (some (to_int (STDVALUE_AS_INT arg)))
        (task_local spidevp_task_type.kSpiTaskRdMaxSpeedHz task_operand.indeterminate) []
    else illegal_int responsehandle
  else if object.method = "setWordSize" then
    if is_int_pair arg then
      decoded.submit (some (to_int (STDVALUE_AS_INT (arg.item 0))))
        (task_local spidevp_task_type.kSpiTaskWrBitsPerWord
          (task_operand.bits (to_unsigned 8 (STDVALUE_AS_INT (arg.item 1))))) []
    else illegal_int_pair responsehandle
  else if object.method = "getWordSize" then
    if STDVALUE_IS_INT arg then
      decoded.submit (some (to_int (STDVALUE_AS_INT arg)))
        (task_local spidevp_task_type.kSpiTaskRdBitsPerWord task_operand.indeterminate) []
    else illegal_int responsehandle
  else if object.method = "transmit" then
    match arg with
    | std_value.kStdMap _ => decode_transmit_map E arg responsehandle
    | _ =>
      decoded.submit none
        (task_local spidevp_task_type.kSpiTaskTransmit task_operand.indeterminate) []
  else if object.method = "close" then
    decoded.submit none
      (task_local spidevp_task_type.kSpiTaskClose task_operand.indeterminate) []
  else decoded.unhandled

/-- Lines 448-459: the reply that depends on the value of `ok`. -/
def spidevp_onReceive_reply (ok : Int) (P1 : spi_plugin_t) (responsehandle : Nat)
    (evs1 : List event) : receive_result :=
  if ok = 0 then { events := evs1, out := outcome.returned 0 P1 }
  else if ok = EBUSY then
    { events := evs1 ++ [event.platch_respond_error_std (some responsehandle)
        "busy" "a different task is running on the fd already" none]
      out := outcome.returned 0 P1 }
  else
    { events := evs1 ++ [event.platch_respond_native_error_std
        (some responsehandle) ok]
      out := outcome.returned 0 P1 }

/-- Lines 446-460: the submission and the reply that depends on its result.
Passing an `fd` that was never assigned is undefined. When the callee ended
without a return statement, `ok` receives the content of the return register. -/
def spidevp_onReceive_submit (E : environment) (P : spi_plugin_t) (fd : Option Int)
    (task : spidevp_task) (responsehandle : Nat) (evs : List event) : receive_result :=
  let evs1 := evs ++ [event.spidevp_assign_task fd task]
  match fd with
  | none => { events := evs1, out := outcome.undefined }
  | some fd =>
    match spidevp_assign_task E P fd task with
    | outcome.blocked => { events := evs1, out := outcome.blocked }
    | outcome.undefined => { events := evs1, out := outcome.undefined }
    | outcome.returned none _ => { events := evs1, out := outcome.undefined }
    | outcome.returned (some ok) P1 => spidevp_onReceive_reply ok P1 responsehandle evs1
    | outcome.fell_off ok P1 => spidevp_onReceive_reply ok P1 responsehandle evs1

/-- Lines 282-463. -/
def spidevp_onReceive (E : environment) (P : spi_plugin_t) (object : platch_obj)
    (responsehandle : Nat) : receive_result :=
  if object.method = "open" then spidevp_open E P object responsehandle
  else
    match spidevp_onReceive_decode E object responsehandle with
    | decoded.responded evs => { events := evs, out := outcome.returned 0 P }
    | decoded.submit fd task evs =>
      spidevp_onReceive_submit E P fd task responsehandle evs
    | decoded.unhandled =>
      { events := [event.platch_respond_not_implemented (some responsehandle)]
        out := outcome.returned 0 P }

/-! ## States and inputs used in the statements -/

/-- An environment in which `open` yields descriptor `fd` and no call fails. -/
def calm (fd : Int) : environment :=
  { errno := 0
    open_ret := fd
    pthread_create_ret := 0
    trylock_fault := none
    malloc_ret := 4096 }

/-- A context bound to `fd` that waits for its first task. -/
def idle_thread (fd : Int) : spidevp_thread :=
  { SPI_THREAD_INITIALIZER with fd := fd }

/-- The registry after `spidevp_init` and one successful `open` that yielded
`fd` (see `registry_after_first_open`). -/
def one_handle (fd : Int) : spi_plugin_t :=
  { threads := [idle_thread fd]
    threadlist_mutex := false
    size_threads := 1
    num_threads := 1 }

/-- The registry `one_handle fd` once `spidevp_assign_task` has accepted `task`
(see `assign_task_accepts_on_idle`): the task is in the slot, the context's own
mutex is free again, and the registry mutex is still locked. -/
def one_pending (fd : Int) (task : spidevp_task) : spi_plugin_t :=
  { threads := [{ idle_thread fd with task := task, has_task := true }]
    threadlist_mutex := true
    size_threads := 1
    num_threads := 1 }

/-- One pass of the worker bound to `threads[i]`, written back into the
registry; `none` when the worker does not complete a pass. -/
def spi_thread_pass (S : syscall_result) (L : spi_thread_locals) (P : spi_plugin_t)
    (i : Nat) : Option (spi_thread_locals × spi_plugin_t × List event) :=
  match P.threads[i]? with
  | none => none
  | some t =>
    match spidevp_run_spi_thread S L t with
    | iteration.completed L1 t1 evs =>
      some (L1, { P with threads := P.threads.set i t1 }, evs)
    | _ => none

/-- A task of the given type as `spidevp_onReceive` leaves it for a method
without operand. -/
def bare_task (type : spidevp_task_type) : spidevp_task :=
  task_local type task_operand.indeterminate

/-! ## Theorems -/

/-- After `spidevp_init`, a first successful registration writes index `0` and
leaves the registry `one_handle fd`. -/
theorem registry_after_first_open (fd : Int) :
    spidevp_new_thread (calm fd) (spidevp_init spi_plugin) fd
      = outcome.returned (0, some 0) (one_handle fd) := by
  simp [spidevp_new_thread, spidevp_init, spi_plugin, calm, one_handle, idle_thread]

/-- A hand-off to an idle context is accepted: the task is stored, the flag is
set, and the registry mutex stays locked. -/
theorem assign_task_accepts_on_idle (fd : Int) (task : spidevp_task) :
    spidevp_assign_task (calm fd) (one_handle fd) fd task
      = outcome.returned (some 0) (one_pending fd task) := by
  simp [spidevp_assign_task, spidevp_get_thread, spidevp_get_thread_scan, one_handle,
    one_pending, idle_thread, pthread_mutex_trylock, calm, SPI_THREAD_INITIALIZER]

/-- C9: evaluation at the failing input. After `spidevp_init`, the open that
yields descriptor 3 registers at index 0; the open that yields descriptor 4 then
writes at index 1, which is not below `size_threads = 1` and lies outside the
one-element allocation, so the registration is undefined and no reply is sent. -/
theorem second_open_writes_outside_registry :
    (spidevp_onReceive (calm 3) (spidevp_init spi_plugin)
        { method := "open", std_arg := std_value.kStdString "/dev/spidev0.0" } 1).out
      = outcome.returned 0 (one_handle 3)
    ∧ (one_handle 3).num_threads = 1
    ∧ ¬ ((one_handle 3).num_threads < (one_handle 3).size_threads)
    ∧ (one_handle 3).threads[(one_handle 3).num_threads]? = none
    ∧ spidevp_new_thread (calm 4) (one_handle 3) 4 = outcome.undefined
    ∧ (spidevp_onReceive (calm 4) (one_handle 3)
        { method := "open", std_arg := std_value.kStdString "/dev/spidev0.0" } 2).out
      = outcome.undefined
    ∧ (spidevp_onReceive (calm 4) (one_handle 3)
        { method := "open", std_arg := std_value.kStdString "/dev/spidev0.0" } 2).events
      = [] := by
  simp [spidevp_onReceive, spidevp_open, spidevp_new_thread, spidevp_init, spi_plugin,
    calm, one_handle, idle_thread]

/-- C10: evaluation at the failing input. With one context bound to `fd` in the
registry and the registry mutex free, `spidevp_get_thread fd` returns that
context with the registry mutex still locked; the next lookup and the next
registration then wait for the mutex, whereas a lookup that finds nothing
returns with the mutex free. -/
theorem get_thread_match_keeps_registry_locked (fd : Int) :
    spidevp_get_thread (one_handle fd) fd
      = outcome.returned (some 0) { one_handle fd with threadlist_mutex := true }
    ∧ spidevp_get_thread { one_handle fd with threadlist_mutex := true } fd
      = outcome.blocked
    ∧ spidevp_new_thread (calm (fd + 1)) { one_handle fd with threadlist_mutex := true }
        (fd + 1) = outcome.blocked
    ∧ spidevp_get_thread (one_handle fd) (fd + 1)
      = outcome.returned none (one_handle fd) := by
  simp [spidevp_get_thread, spidevp_get_thread_scan, spidevp_new_thread, one_handle,
    idle_thread]

/-- C1: evaluation at the failing input. On a registered idle context,
`spidevp_assign_task fd T1` returns 0; a second `spidevp_assign_task fd T2`
made before the worker has run does not return `EBUSY`: it waits for the
registry mutex that the first call left locked. Were that mutex released, the
second call would find the context's own mutex free, return 0 and replace `T1`
in the slot by `T2`. -/
theorem second_submission_is_not_rejected (fd : Int) (T1 T2 : spidevp_task) :
    spidevp_assign_task (calm fd) (one_handle fd) fd T1
      = outcome.returned (some 0) (one_pending fd T1)
    ∧ spidevp_assign_task (calm fd) (one_pending fd T1) fd T2 = outcome.blocked
    ∧ spidevp_assign_task (calm fd)
        { one_pending fd T1 with threadlist_mutex := false } fd T2
      = outcome.returned (some 0) (one_pending fd T2) := by
  simp [spidevp_assign_task, spidevp_get_thread, spidevp_get_thread_scan, one_handle,
    one_pending, idle_thread, pthread_mutex_trylock, calm, SPI_THREAD_INITIALIZER]

/-- C2: evaluation at the failing input. For a read-mode task whose `ioctl`
succeeds and stores `v`, the pass copies the value into `result` but passes
`NULL` as the return value of the success reply: the reply has no payload. The
same holds for the word-size and speed reads. -/
theorem read_reply_has_no_payload (fd : Int) (h : Option Nat) (v : Nat) (e : Int) :
    spidevp_run_spi_thread { ret := 0, errno := e, out := v }
        (spi_thread_entry (idle_thread fd))
        { idle_thread fd with
          has_task := true
          task := { bare_task spidevp_task_type.kSpiTaskRdMode with responsehandle := h } }
      = iteration.completed
          { result := some ((v % 256 : Nat) : Int), running := true, fd := fd, err := 0,
            ok := some 0 }
          { idle_thread fd with
            has_task := false
            task := { type := spidevp_task_type.kSpiTaskRdMode
                      operand := task_operand.mode (v % 256)
                      responsehandle := h } }
          [event.platch_respond_success_std h none]
    ∧ (∀ L1 t1 evs,
        spidevp_run_spi_thread { ret := 0, errno := e, out := v }
          (spi_thread_entry (idle_thread fd))
          { idle_thread fd with
            has_task := true
            task := { bare_task spidevp_task_type.kSpiTaskRdBitsPerWord with
                      responsehandle := h } }
          = iteration.completed L1 t1 evs →
        evs = [event.platch_respond_success_std h none])
    ∧ (∀ L1 t1 evs,
        spidevp_run_spi_thread { ret := 0, errno := e, out := v }
          (spi_thread_entry (idle_thread fd))
          { idle_thread fd with
            has_task := true
            task := { bare_task spidevp_task_type.kSpiTaskRdMaxSpeedHz with
                      responsehandle := h } }
          = iteration.completed L1 t1 evs →
        evs = [event.platch_respond_success_std h none]) := by
  refine ⟨?_, ?_, ?_⟩
  · simp [spidevp_run_spi_thread, spi_thread_switch, spi_thread_tail, spi_thread_entry,
      idle_thread, bare_task, task_local, SPI_THREAD_INITIALIZER]
  · intro L1 t1 evs hrun
    simp [spidevp_run_spi_thread, spi_thread_switch, spi_thread_tail, spi_thread_entry,
      idle_thread, bare_task, task_local, SPI_THREAD_INITIALIZER] at hrun
    exact hrun.2.2.symm
  · intro L1 t1 evs hrun
    simp [spidevp_run_spi_thread, spi_thread_switch, spi_thread_tail, spi_thread_entry,
      idle_thread, bare_task, task_local, SPI_THREAD_INITIALIZER] at hrun
    exact hrun.2.2.symm

/-- C3: evaluation at the failing inputs. `transmit` with an argument that is
not a map, and `close` with an argument that is not an integer, send no
illegal-argument reply: the only call made is `spidevp_assign_task`, with an
`fd` that was never assigned. -/
theorem malformed_transmit_and_close_reach_submission (E : environment)
    (P : spi_plugin_t) (n : Int) (s : String) (R : Nat) :
    spidevp_onReceive E P { method := "transmit", std_arg := std_value.kStdInt n } R
      = { events := [event.spidevp_assign_task none
            (bare_task spidevp_task_type.kSpiTaskTransmit)]
          out := outcome.undefined }
    ∧ spidevp_onReceive E P { method := "close", std_arg := std_value.kStdString s } R
      = { events := [event.spidevp_assign_task none
            (bare_task spidevp_task_type.kSpiTaskClose)]
          out := outcome.undefined } := by
  simp [spidevp_onReceive, spidevp_onReceive_decode, spidevp_onReceive_submit, bare_task]

/-- C4: evaluation at the failing input. For `close` with the well-formed
argument `h`, the decoder builds a task tagged `kSpiTaskClose` but never reads
`h`: the `fd` it passes to `spidevp_assign_task` was never assigned, whatever
`h` is, while `getMode` with the same argument submits with `fd = h`. -/
theorem close_does_not_submit_to_its_handle (E : environment) (P : spi_plugin_t)
    (h : Int) (R : Nat) :
    spidevp_onReceive_decode E { method := "close", std_arg := std_value.kStdInt h } R
      = decoded.submit none (bare_task spidevp_task_type.kSpiTaskClose) []
    ∧ spidevp_onReceive E P { method := "close", std_arg := std_value.kStdInt h } R
      = { events := [event.spidevp_assign_task none
            (bare_task spidevp_task_type.kSpiTaskClose)]
          out := outcome.undefined }
    ∧ spidevp_onReceive_decode E { method := "getMode", std_arg := std_value.kStdInt h } R
      = decoded.submit (some (to_int h)) (bare_task spidevp_task_type.kSpiTaskRdMode) []
    ∧ to_int 3 = 3 := by
  simp [spidevp_onReceive, spidevp_onReceive_decode, spidevp_onReceive_submit, bare_task,
    STDVALUE_IS_INT, STDVALUE_AS_INT, to_int]

/-- Every task the decoder hands to the submission has a response handle that
was never assigned. -/
theorem decode_leaves_responsehandle_unassigned (E : environment) (object : platch_obj)
    (R : Nat) (fd : Option Int) (task : spidevp_task) (evs : List event)
    (h : spidevp_onReceive_decode E object R = decoded.submit fd task evs) :
    task.responsehandle = none ∧
      ∀ ev ∈ evs, ∀ fd1 task1, ev ≠ event.spidevp_assign_task fd1 task1 := by
  unfold spidevp_onReceive_decode at h
  simp only [illegal_int_pair, illegal_int] at h
  repeat' split at h
  all_goals first
    | (cases h; simp [task_local])
    | cases h
    | skip
  unfold decode_transmit_map at h
  repeat' split at h
  all_goals first
    | (cases h; simp [task_local])
    | cases h

/-- The receiver for `open` never calls `spidevp_assign_task`. -/
theorem open_makes_no_submission (E : environment) (P : spi_plugin_t)
    (object : platch_obj) (R : Nat) (fd : Option Int) (task : spidevp_task) :
    event.spidevp_assign_task fd task ∉ (spidevp_open E P object R).events := by
  unfold spidevp_open
  split
  · simp only []
    split
    · simp
    · split <;> (try split) <;> simp
  · simp

/-- A reply that leaves the if-chain early is not a call of
`spidevp_assign_task`. -/
theorem decode_reply_is_no_submission (E : environment) (object : platch_obj)
    (R : Nat) (evs : List event)
    (h : spidevp_onReceive_decode E object R = decoded.responded evs) :
    ∀ ev ∈ evs, ∀ fd1 task1, ev ≠ event.spidevp_assign_task fd1 task1 := by
  unfold spidevp_onReceive_decode at h
  simp only [illegal_int_pair, illegal_int] at h
  repeat' split at h
  all_goals first
    | (cases h; simp)
    | cases h
    | skip
  unfold decode_transmit_map at h
  repeat' split at h
  all_goals first
    | (cases h; simp)
    | cases h

/-- The events of a submission: the decoding events, the call, and at most one
reply. -/
theorem submit_events (E : environment) (P : spi_plugin_t) (fd : Option Int)
    (task : spidevp_task) (R : Nat) (evs : List event) :
    ∃ tail : List event,
      (spidevp_onReceive_submit E P fd task R evs).events
        = evs ++ event.spidevp_assign_task fd task :: tail
      ∧ ∀ ev ∈ tail, ∀ fd1 task1, ev ≠ event.spidevp_assign_task fd1 task1 := by
  unfold spidevp_onReceive_submit
  simp only [spidevp_onReceive_reply]
  repeat' split
  all_goals
    simp only [List.append_assoc, List.singleton_append]
    refine ⟨_, rfl, ?_⟩
    simp

/-- C7: what the code does. Every task that `spidevp_onReceive` passes to
`spidevp_assign_task` has a `responsehandle` that was never assigned: no
statement of the receiver copies the request's response handle `R` into the
task, so the field is not equal to `R`. -/
theorem submitted_task_lacks_request_handle (E : environment) (P : spi_plugin_t)
    (object : platch_obj) (R : Nat) (fd : Option Int) (task : spidevp_task)
    (h : event.spidevp_assign_task fd task ∈ (spidevp_onReceive E P object R).events) :
    task.responsehandle = none ∧ task.responsehandle ≠ some R := by
  have key : task.responsehandle = none := by
    unfold spidevp_onReceive at h
    split at h
    · exact absurd h (open_makes_no_submission E P object R fd task)
    · split at h
      · rename_i evs hd
        exact absurd rfl (decode_reply_is_no_submission E object R evs hd _ h fd task)
      · rename_i fd0 task0 evs hd
        obtain ⟨hnone, hevs⟩ := decode_leaves_responsehandle_unassigned E object R fd0 task0 evs hd
        obtain ⟨tail, htail, hno⟩ := submit_events E P fd0 task0 R evs
        rw [htail] at h
        rcases List.mem_append.mp h with h1 | h1
        · exact absurd rfl (hevs _ h1 fd task)
        · rcases List.mem_cons.mp h1 with h2 | h2
          · cases h2
            exact hnone
          · exact absurd rfl (hno _ h2 fd task)
      · simp at h
  exact ⟨key, by simp [key]⟩

/-- C7: the statement above at the request `getMode 3` with response handle 7. -/
theorem submitted_task_lacks_request_handle_witness :
    event.spidevp_assign_task (some 3) (bare_task spidevp_task_type.kSpiTaskRdMode)
        ∈ (spidevp_onReceive (calm 3) (one_handle 3)
            { method := "getMode", std_arg := std_value.kStdInt 3 } 7).events
    ∧ (bare_task spidevp_task_type.kSpiTaskRdMode).responsehandle = none
    ∧ (bare_task spidevp_task_type.kSpiTaskRdMode).responsehandle ≠ some 7 :=
  ⟨by simp [spidevp_onReceive, spidevp_onReceive_decode, spidevp_onReceive_submit,
      spidevp_onReceive_reply, bare_task, STDVALUE_IS_INT, STDVALUE_AS_INT, to_int, spidevp_assign_task,
      spidevp_get_thread, spidevp_get_thread_scan, one_handle, idle_thread,
      pthread_mutex_trylock, calm, SPI_THREAD_INITIALIZER],
   submitted_task_lacks_request_handle (calm 3) (one_handle 3)
      { method := "getMode", std_arg := std_value.kStdInt 3 } 7 (some 3)
      (bare_task spidevp_task_type.kSpiTaskRdMode)
      (by simp [spidevp_onReceive, spidevp_onReceive_decode, spidevp_onReceive_submit,
        spidevp_onReceive_reply, bare_task, STDVALUE_IS_INT, STDVALUE_AS_INT, to_int, spidevp_assign_task,
        spidevp_get_thread, spidevp_get_thread_scan, one_handle, idle_thread,
        pthread_mutex_trylock, calm, SPI_THREAD_INITIALIZER])⟩

/-- A pass that starts with the loop running, the mutex free and a task pending
runs the switch and the tail. -/
theorem run_spi_thread_completes (S : syscall_result) (L : spi_thread_locals)
    (t : spidevp_thread) (hrun : L.running = true) (hfree : t.mutex = false)
    (htask : t.has_task = true) :
    spidevp_run_spi_thread S L t
      = iteration.completed
          (spi_thread_tail (spi_thread_switch S L { t with mutex := true }).1
            (spi_thread_switch S L { t with mutex := true }).2.1).1
          (spi_thread_tail (spi_thread_switch S L { t with mutex := true }).1
            (spi_thread_switch S L { t with mutex := true }).2.1).2.1
          ((spi_thread_switch S L { t with mutex := true }).2.2
            ++ (spi_thread_tail (spi_thread_switch S L { t with mutex := true }).1
              (spi_thread_switch S L { t with mutex := true }).2.1).2.2) := by
  simp [spidevp_run_spi_thread, hrun, hfree, htask]

/-- The error code is zero when the loop is first reached. -/
theorem spi_thread_entry_err (thread : spidevp_thread) :
    (spi_thread_entry thread).err = 0 ∧ (spi_thread_entry thread).running = true := by
  simp [spi_thread_entry]

/-- Whatever the pass did, the error code is zero after the tail of the body. -/
theorem spi_thread_tail_err (L : spi_thread_locals) (t : spidevp_thread) :
    (spi_thread_tail L t).1.err = 0 := by
  unfold spi_thread_tail
  split <;> simp_all

/-- C6: one pass of the worker loop, entered with the error code clear (as it is
at thread entry and after every pass), the mutex free and a task of any of the
eight types pending, completes and sends exactly one terminal reply, on the
task's response handle: a success reply and nothing else when the system call
succeeds, a native-error reply carrying `errno` and nothing else when the call
returns -1 with a non-zero `errno`. Afterwards the error code is zero again, the
pending flag is cleared and the mutex is free. -/
theorem worker_pass_sends_exactly_one_reply (S : syscall_result)
    (L : spi_thread_locals) (t : spidevp_thread)
    (hrun : L.running = true) (herr : L.err = 0)
    (hfree : t.mutex = false) (htask : t.has_task = true)
    (hout : S.ret ≠ -1 ∨ (S.ret = -1 ∧ S.errno ≠ 0)) :
    ∃ L1 t1 evs,
      spidevp_run_spi_thread S L t = iteration.completed L1 t1 evs
      ∧ (S.ret ≠ -1 →
          replies evs = [event.platch_respond_success_std t.task.responsehandle none])
      ∧ (S.ret = -1 →
          replies evs
            = [event.platch_respond_native_error_std t.task.responsehandle S.errno])
      ∧ L1.err = 0 ∧ t1.has_task = false ∧ t1.mutex = false
      ∧ t1.task.responsehandle = t.task.responsehandle := by
  refine ⟨_, _, _, run_spi_thread_completes S L t hrun hfree htask, ?_⟩
  rcases hout with hs | ⟨hf, he⟩
  · cases ht : t.task.type <;>
      simp [spi_thread_switch, spi_thread_tail, spi_thread_fail, replies, event.is_reply,
        ht, hs, herr]
  · cases ht : t.task.type <;>
      simp [spi_thread_switch, spi_thread_tail, spi_thread_fail, replies, event.is_reply,
        ht, hf, he, herr]

/-- C6: the statement above for a write-mode task with response handle 7 whose
`ioctl` fails with `errno` 5. -/
theorem worker_pass_sends_exactly_one_reply_witness :
    ∃ L1 t1 evs,
      spidevp_run_spi_thread { ret := -1, errno := 5, out := 0 }
          (spi_thread_entry (idle_thread 3))
          { idle_thread 3 with
            has_task := true
            task := { type := spidevp_task_type.kSpiTaskWrMode
                      operand := task_operand.mode 1
                      responsehandle := some 7 } }
        = iteration.completed L1 t1 evs
      ∧ ((-1 : Int) ≠ -1 →
          replies evs = [event.platch_respond_success_std (some 7) none])
      ∧ ((-1 : Int) = -1 →
          replies evs = [event.platch_respond_native_error_std (some 7) 5])
      ∧ L1.err = 0 ∧ t1.has_task = false ∧ t1.mutex = false
      ∧ t1.task.responsehandle = some 7 :=
  worker_pass_sends_exactly_one_reply { ret := -1, errno := 5, out := 0 }
    (spi_thread_entry (idle_thread 3))
    { idle_thread 3 with
      has_task := true
      task := { type := spidevp_task_type.kSpiTaskWrMode
                operand := task_operand.mode 1
                responsehandle := some 7 } }
    (by simp [spi_thread_entry]) (by simp [spi_thread_entry])
    (by simp [idle_thread, SPI_THREAD_INITIALIZER]) (by simp)
    (Or.inr ⟨by simp, by simp⟩)

/-- What a pass does with a close task, on the context alone: when `close`
fails with a non-zero `errno` the loop keeps running, the bound descriptor is
unchanged, the flag is cleared, the mutex is free and the one event is the
native-error reply; when `close` succeeds the descriptor becomes -1, the one
event is the success reply and the loop condition is false, so the next pass
finds the thread function over. -/
theorem close_pass_on_context (S : syscall_result) (L : spi_thread_locals)
    (t : spidevp_thread) (hrun : L.running = true) (herr : L.err = 0)
    (hfree : t.mutex = false) (htask : t.has_task = true)
    (hclose : t.task.type = spidevp_task_type.kSpiTaskClose) :
    (S.ret = -1 → S.errno ≠ 0 →
      spidevp_run_spi_thread S L t
        = iteration.completed { L with ok := some S.ret, err := 0 }
            { t with has_task := false }
            [event.platch_respond_native_error_std t.task.responsehandle S.errno])
    ∧ (S.ret ≠ -1 →
      spidevp_run_spi_thread S L t
        = iteration.completed { L with ok := some S.ret, running := false }
            { t with has_task := false, fd := -1 }
            [event.platch_respond_success_std t.task.responsehandle none]
      ∧ ∀ S1 t1, spidevp_run_spi_thread S1
          { L with ok := some S.ret, running := false } t1 = iteration.exited) := by
  refine ⟨?_, ?_⟩
  · intro hf he
    rw [run_spi_thread_completes S L t hrun hfree htask]
    cases t
    simp_all [spi_thread_switch, spi_thread_tail, spi_thread_fail]
  · intro hs
    refine ⟨?_, ?_⟩
    · rw [run_spi_thread_completes S L t hrun hfree htask]
      cases t
      cases L
      simp_all [spi_thread_switch, spi_thread_tail, spi_thread_fail]
    · intro S1 t1
      simp [spidevp_run_spi_thread]

/-- C8: evaluation at the failing input. A close task is submitted to the one
registered context and `close` fails with `errno` 5: the pass keeps the thread
running, leaves the descriptor, clears the flag, frees the context's mutex and
sends exactly the native-error reply. The following `spidevp_assign_task` on the
same handle is nevertheless not accepted: it waits for the registry mutex, which
the lookup of the submission that delivered the close task left locked. -/
theorem submission_after_failed_close_waits (fd : Int) (op : task_operand)
    (h : Option Nat) (T : spidevp_task) :
    spidevp_assign_task (calm fd) (one_handle fd) fd
        { type := spidevp_task_type.kSpiTaskClose, operand := op, responsehandle := h }
      = outcome.returned (some 0)
          (one_pending fd
            { type := spidevp_task_type.kSpiTaskClose, operand := op, responsehandle := h })
    ∧ spi_thread_pass { ret := -1, errno := 5, out := 0 }
        (spi_thread_entry (idle_thread fd))
        (one_pending fd
          { type := spidevp_task_type.kSpiTaskClose, operand := op, responsehandle := h }) 0
      = some
          ({ result := none, running := true, fd := fd, err := 0, ok := some (-1) },
           { threads :=
               [{ fd := fd
                  has_task := false
                  task := { type := spidevp_task_type.kSpiTaskClose
                            operand := op
                            responsehandle := h }
                  mutex := false }]
             threadlist_mutex := true
             size_threads := 1
             num_threads := 1 },
           [event.platch_respond_native_error_std h 5])
    ∧ spidevp_assign_task (calm fd)
        { threads :=
            [{ fd := fd
               has_task := false
               task := { type := spidevp_task_type.kSpiTaskClose
                         operand := op
                         responsehandle := h }
               mutex := false }]
          threadlist_mutex := true
          size_threads := 1
          num_threads := 1 } fd T
      = outcome.blocked := by
  refine ⟨?_, ?_, ?_⟩
  · simp [spidevp_assign_task, spidevp_get_thread, spidevp_get_thread_scan, one_handle,
      one_pending, idle_thread, pthread_mutex_trylock, calm, SPI_THREAD_INITIALIZER]
  · simp [spi_thread_pass, spidevp_run_spi_thread, spi_thread_switch, spi_thread_tail,
      spi_thread_fail, spi_thread_entry, one_pending, idle_thread, SPI_THREAD_INITIALIZER]
  · simp [spidevp_assign_task, spidevp_get_thread]

/-- The scan of the registry returns the first context, in registry order, whose
bound descriptor equals the argument: a match at `i` has the descriptor and no
index from the start of the scan up to `i` has it; when the scan finds nothing,
no index it visited has it. -/
theorem get_thread_scan_first_match (threads : List spidevp_thread) (fd : Int)
    (n i : Nat) :
    (∀ k, spidevp_get_thread_scan threads fd i n = scan_result.found k →
        i ≤ k ∧ k < i + n ∧ (∃ t, threads[k]? = some t ∧ t.fd = fd)
        ∧ ∀ j, i ≤ j → j < k → ∀ t, threads[j]? = some t → t.fd ≠ fd)
    ∧ (spidevp_get_thread_scan threads fd i n = scan_result.not_found →
        ∀ j, i ≤ j → j < i + n → ∀ t, threads[j]? = some t → t.fd ≠ fd) := by
  induction n generalizing i with
  | zero =>
    refine ⟨?_, ?_⟩
    · intro k hk
      simp [spidevp_get_thread_scan] at hk
    · intro _ j h1 h2
      omega
  | succ n ih =>
    refine ⟨?_, ?_⟩
    · intro k hk
      unfold spidevp_get_thread_scan at hk
      split at hk
      · cases hk
      · rename_i t ht
        split at hk
        · rename_i hfd
          cases hk
          exact ⟨le_refl _, by omega, ⟨t, ht, hfd⟩, fun j h1 h2 => by omega⟩
        · rename_i hfd
          obtain ⟨h1, h2, h3, h4⟩ := (ih (i + 1)).1 k hk
          refine ⟨by omega, by omega, h3, ?_⟩
          intro j hj1 hj2 u hu
          by_cases hji : j = i
          · subst hji
            rw [ht] at hu
            cases hu
            exact hfd
          · exact h4 j (by omega) hj2 u hu
    · intro hk j hj1 hj2 u hu
      unfold spidevp_get_thread_scan at hk
      split at hk
      · cases hk
      · rename_i t ht
        split at hk
        · cases hk
        · rename_i hfd
          by_cases hji : j = i
          · subst hji
            rw [ht] at hu
            cases hu
            exact hfd
          · exact (ih (i + 1)).2 hk j (by omega) (by omega) u hu

/-- While the registry mutex is locked, every function that takes it waits, and
a pass of a worker does not release it: nothing in the plugin unlocks the
registry mutex on behalf of a lookup that returned a match. -/
theorem locked_registry_blocks (E : environment) (P : spi_plugin_t) (fd : Int)
    (task : spidevp_task) (hlock : P.threadlist_mutex = true) :
    spidevp_get_thread P fd = outcome.blocked
    ∧ spidevp_new_thread E P fd = outcome.blocked
    ∧ spidevp_assign_task E P fd task = outcome.blocked
    ∧ ∀ S L i L1 P1 evs, spi_thread_pass S L P i = some (L1, P1, evs) →
        P1.threadlist_mutex = true := by
  refine ⟨?_, ?_, ?_, ?_⟩
  · simp [spidevp_get_thread, hlock]
  · simp [spidevp_new_thread, hlock]
  · simp [spidevp_assign_task, spidevp_get_thread, hlock]
  · intro S L i L1 P1 evs hpass
    unfold spi_thread_pass at hpass
    split at hpass
    · cases hpass
    · split at hpass
      · cases hpass
        exact hlock
      · cases hpass

/-- Every lookup that finds a context returns with the registry mutex locked. -/
theorem get_thread_found_locked (P : spi_plugin_t) (fd : Int) (i : Nat)
    (P1 : spi_plugin_t) (h : spidevp_get_thread P fd = outcome.returned (some i) P1) :
    P1.threadlist_mutex = true := by
  unfold spidevp_get_thread at h
  split at h
  · cases h
  · simp only [] at h
    split at h
    · cases h
    · cases h
      rfl
    · cases h

/-- A registration finds no room as soon as the registry holds as many contexts
as were allocated: the write of line 222 is outside the storage. -/
theorem new_thread_beyond_capacity (E : environment) (P : spi_plugin_t) (fd : Int)
    (hfree : P.threadlist_mutex = false) (hfull : P.threads.length ≤ P.num_threads) :
    spidevp_new_thread E P fd = outcome.undefined := by
  have hnone : P.threads[P.num_threads]? = none := List.getElem?_eq_none hfull
  simp [spidevp_new_thread, hfree, hnone]

/-- With the registry mutex free, a context whose close failed does accept the
next task: the descriptor is still bound, the flag is clear and the context's
mutex is free, so the lookup finds it and the probe succeeds. -/
theorem failed_close_context_accepts_when_registry_free (fd : Int) (op : task_operand)
    (h : Option Nat) (T : spidevp_task) :
    spidevp_assign_task (calm fd)
        { threads :=
            [{ fd := fd
               has_task := false
               task := { type := spidevp_task_type.kSpiTaskClose
                         operand := op
                         responsehandle := h }
               mutex := false }]
          threadlist_mutex := false
          size_threads := 1
          num_threads := 1 } fd T
      = outcome.returned (some 0) (one_pending fd T) := by
  simp [spidevp_assign_task, spidevp_get_thread, spidevp_get_thread_scan, one_pending,
    idle_thread, pthread_mutex_trylock, calm, SPI_THREAD_INITIALIZER]

end Spidev
